/-
Verification of the book-tracker core: a shallow embedding of the domain
model (`src/types/book.ts`), the book store (`useBooks`), the persistence
migration (`loadBooks`/`saveBooks`) and the reading-streak calculator
(`useReadingStreak`), with theorems settling the specified properties.
-/
import Mathlib

namespace BookTracker

/-! ### Domain model (src/types/book.ts, second revision) -/

/-- Embeds `type MoodType = 'neutral' | 'sad' | 'happy'`. -/
inductive MoodType
  | neutral
  | sad
  | happy
deriving DecidableEq, Repr

/-- Embeds `type PriorityLevel = 'high' | 'medium' | 'low' | 'none'`. -/
inductive PriorityLevel
  | high
  | medium
  | low
  | none
deriving DecidableEq, Repr

/-- The stored `status` field of a book: `'reading' | 'later'`. -/
inductive StoredStatus
  | reading
  | later
deriving DecidableEq, Repr

/-- Embeds `interface PageReflection { page; topic; text; mood }`. -/
structure PageReflection where
  page : Int
  topic : String
  text : String
  mood : MoodType
deriving DecidableEq, Repr

/-- PDF annotation `type` field: `'highlight' | 'note' | 'drawing'`. -/
inductive AnnotationType
  | highlight
  | note
  | drawing
deriving DecidableEq, Repr

/-- The `position` field of a PDF annotation. -/
structure AnnotationPosition where
  x : Int
  y : Int
  width : Option Int
  height : Option Int
deriving DecidableEq, Repr

/-- Embeds `interface PDFAnnotation`. -/
structure PDFAnnotation where
  id : String
  page : Int
  type : AnnotationType
  content : String
  color : String
  position : AnnotationPosition
  createdAt : Int
deriving DecidableEq, Repr

/-- Embeds `interface Book` (second revision: optional `pdfURL`, `status`,
`priority`, `pdfAnnotations`; `none` models an absent field). -/
structure Book where
  id : Int
  title : String
  author : String
  totalPages : Int
  currentPage : Int
  coverURL : String
  notes : String
  pageReflections : List PageReflection
  pdfURL : Option String
  status : Option StoredStatus
  priority : Option PriorityLevel
  pdfAnnotations : Option (List PDFAnnotation)
deriving DecidableEq, Repr

/-- Derived status label `type BookStatus = 'Reading' | 'Completed' | 'Later'`. -/
inductive BookStatus
  | Reading
  | Completed
  | Later
deriving DecidableEq, Repr

/-- Embeds `type FilterType = 'All' | 'Reading' | 'Completed' | 'Later'`. -/
inductive FilterType
  | All
  | Reading
  | Completed
  | Later
deriving DecidableEq, Repr

/-- Models `getBookStatus`: `if (book.status === 'later') return 'Later';
return book.currentPage >= book.totalPages ? 'Completed' : 'Reading';`. -/
def getBookStatus (b : Book) : BookStatus :=
  if b.status = some StoredStatus.later then BookStatus.Later
  else if b.totalPages ≤ b.currentPage then BookStatus.Completed
  else BookStatus.Reading

/-- Models `getProgressPercentage`: `if (totalPages === 0) return 0;
return Math.round((currentPage / totalPages) * 100);`.
`Math.round x` is `⌊x + 1/2⌋` on exact rationals, and
`⌊100*cp/tp + 1/2⌋ = ⌊(200*cp + tp) / (2*tp)⌋`, here via floor division. -/
def getProgressPercentage (b : Book) : Int :=
  if b.totalPages = 0 then 0
  else Int.fdiv (200 * b.currentPage + b.totalPages) (2 * b.totalPages)

/-- Models `getMilestones`: four threshold/reached pairs at 25/50/75/100. -/
def getMilestones (b : Book) : List (Int × Bool) :=
  let progress := getProgressPercentage b
  [(25, 25 ≤ progress), (50, 50 ≤ progress),
   (75, 75 ≤ progress), (100, 100 ≤ progress)]

/-! ### Book store (`useBooks`, second revision in src/unnamed/part_005) -/

/-- Models `priorityOrder`: `{ high: 0, medium: 1, low: 2, none: 3 }`. -/
def priorityOrder : PriorityLevel → Int
  | PriorityLevel.high => 0
  | PriorityLevel.medium => 1
  | PriorityLevel.low => 2
  | PriorityLevel.none => 3

/-- Argument of `addBook`: `Omit<Book, 'id' | 'currentPage' | 'notes' |
'pageReflections'>`. -/
structure BookDraft where
  title : String
  author : String
  totalPages : Int
  coverURL : String
  pdfURL : Option String
  status : Option StoredStatus
  priority : Option PriorityLevel
  pdfAnnotations : Option (List PDFAnnotation)
deriving DecidableEq, Repr

/-- Models `addBook`: spreads the draft, then sets `id: Date.now()`,
`currentPage: 0`, `notes: ''`, `pageReflections: []`,
`status: bookData.status || 'reading'`, `priority: bookData.priority || 'none'`,
`pdfAnnotations: []`, and appends. `now` models the `Date.now()` value. -/
def addBook (now : Int) (d : BookDraft) (books : List Book) : List Book :=
  books ++ [{ id := now
              title := d.title
              author := d.author
              totalPages := d.totalPages
              currentPage := 0
              coverURL := d.coverURL
              notes := ""
              pageReflections := []
              pdfURL := d.pdfURL
              status := some (d.status.getD StoredStatus.reading)
              priority := some (d.priority.getD PriorityLevel.none)
              pdfAnnotations := some [] }]

/-- Embeds `Partial<Book>`: each field is present (`some`) or absent (`none`);
a present field carries the value the JS object spread would write. -/
structure BookUpdate where
  id : Option Int := Option.none
  title : Option String := Option.none
  author : Option String := Option.none
  totalPages : Option Int := Option.none
  currentPage : Option Int := Option.none
  coverURL : Option String := Option.none
  notes : Option String := Option.none
  pageReflections : Option (List PageReflection) := Option.none
  pdfURL : Option (Option String) := Option.none
  status : Option (Option StoredStatus) := Option.none
  priority : Option (Option PriorityLevel) := Option.none
  pdfAnnotations : Option (Option (List PDFAnnotation)) := Option.none
deriving DecidableEq, Repr

/-- The object spread `{ ...book, ...updates }`: every field present in
`updates` overrides the corresponding field of `book`. -/
def applyUpdate (b : Book) (u : BookUpdate) : Book :=
  { id := u.id.getD b.id
    title := u.title.getD b.title
    author := u.author.getD b.author
    totalPages := u.totalPages.getD b.totalPages
    currentPage := u.currentPage.getD b.currentPage
    coverURL := u.coverURL.getD b.coverURL
    notes := u.notes.getD b.notes
    pageReflections := u.pageReflections.getD b.pageReflections
    pdfURL := u.pdfURL.getD b.pdfURL
    status := u.status.getD b.status
    priority := u.priority.getD b.priority
    pdfAnnotations := u.pdfAnnotations.getD b.pdfAnnotations }

/-- Models `updateBook`: `prev.map(book => book.id === id ? { ...book, ...updates } : book)`. -/
def updateBook (id : Int) (u : BookUpdate) (books : List Book) : List Book :=
  books.map fun b => if b.id = id then applyUpdate b u else b

/-- Models `deleteBook`: `prev.filter(book => book.id !== id)`. -/
def deleteBook (id : Int) (books : List Book) : List Book :=
  books.filter fun b => b.id ≠ id

/-- Models `getBookStatus(book) === filter` (string equality between a derived
status and a filter value). -/
def statusMatchesFilter (s : BookStatus) (f : FilterType) : Bool :=
  match s, f with
  | BookStatus.Reading, FilterType.Reading => true
  | BookStatus.Completed, FilterType.Completed => true
  | BookStatus.Later, FilterType.Later => true
  | _, _ => false

/-- Substring test modelling JS `String.prototype.includes`: the needle is a
contiguous infix of the haystack. -/
def strIncludes (hay needle : String) : Bool :=
  decide (needle.data <:+: hay.data)

/-- JS `String.prototype.toLowerCase`, character by character. -/
def strToLower (s : String) : String :=
  String.mk (s.data.map Char.toLower)

/-- Whitespace stripped by JS `String.prototype.trim` (the common characters). -/
def isTrimmedWhitespace (c : Char) : Bool :=
  c = ' ' || c = '\t' || c = '\n' || c = '\r' || c = '\x0b' || c = '\x0c'

/-- JS `String.prototype.trim`: strip leading and trailing whitespace. -/
def strTrim (s : String) : String :=
  String.mk (((s.data.dropWhile isTrimmedWhitespace).reverse.dropWhile
    isTrimmedWhitespace).reverse)

/-- The comparator passed to `result.sort`: `priorityA - priorityB` when the
ranks differ, else `b.id - a.id` (descending id). -/
def jsCompare (a b : Book) : Int :=
  let priorityA := priorityOrder (a.priority.getD PriorityLevel.none)
  let priorityB := priorityOrder (b.priority.getD PriorityLevel.none)
  if priorityA ≠ priorityB then priorityA - priorityB else b.id - a.id

/-- Relation "`a` may stay before `b`" for the comparator: `jsCompare a b ≤ 0`. A
stable sort by `jsCompare` orders the list by this relation. -/
def bookLe (a b : Book) : Prop := jsCompare a b ≤ 0

instance : DecidableRel bookLe := fun a b =>
  inferInstanceAs (Decidable (jsCompare a b ≤ 0))

/-- Models `filteredBooks`: status filter when `filter !== 'All'`, then search
filter when `searchQuery.trim()` is non-empty (matching the lowercased query
against lowercased title or author), then a stable sort by `jsCompare`
(JS `Array.prototype.sort` with a consistent comparator; `insertionSort`
is the stable sort by `bookLe`). -/
def filteredBooks (books : List Book) (filter : FilterType) (searchQuery : String) : List Book :=
  let result := if filter ≠ FilterType.All
    then books.filter fun b => statusMatchesFilter (getBookStatus b) filter
    else books
  let result := if strTrim searchQuery ≠ ""
    then result.filter fun b =>
      strIncludes (strToLower b.title) (strToLower searchQuery) ||
      strIncludes (strToLower b.author) (strToLower searchQuery)
    else result
  List.insertionSort bookLe result

/-- The `stats` record computed by `useBooks`. -/
structure Stats where
  totalBooks : Nat
  completed : Nat
  pagesRead : Int
  later : Nat
deriving DecidableEq, Repr

/-- Models `stats`: counts over the full list and `reduce((sum, b) => sum + b.currentPage, 0)`. -/
def stats (books : List Book) : Stats :=
  { totalBooks := books.length
    completed := (books.filter fun b => getBookStatus b = BookStatus.Completed).length
    pagesRead := books.foldl (fun sum b => sum + b.currentPage) 0
    later := (books.filter fun b => getBookStatus b = BookStatus.Later).length }

/-! ### Persistence (`loadBooks` / `saveBooks`, second revision) -/

/-- A raw stored record as parsed from JSON: every field that an older
schema may lack is optional. `JSON.stringify` drops `undefined` fields, so
a `Book` with an absent optional field is stored without that key. -/
structure RawBook where
  id : Int
  title : String
  author : String
  totalPages : Int
  currentPage : Int
  coverURL : String
  notes : String
  pageReflections : Option (List PageReflection)
  pdfURL : Option String
  status : Option StoredStatus
  priority : Option PriorityLevel
  pdfAnnotations : Option (List PDFAnnotation)
deriving DecidableEq, Repr

/-- Models `JSON.stringify` of one book: present fields keep their values, absent
optional fields are dropped. -/
def saveBook (b : Book) : RawBook :=
  { id := b.id
    title := b.title
    author := b.author
    totalPages := b.totalPages
    currentPage := b.currentPage
    coverURL := b.coverURL
    notes := b.notes
    pageReflections := some b.pageReflections
    pdfURL := b.pdfURL
    status := b.status
    priority := b.priority
    pdfAnnotations := b.pdfAnnotations }

/-- The per-record migration inside `loadBooks`:
`{ ...book, pageReflections: book.pageReflections || [],
status: book.status || 'reading', priority: book.priority || 'none',
pdfAnnotations: book.pdfAnnotations || [] }`. -/
def migrate (r : RawBook) : Book :=
  { id := r.id
    title := r.title
    author := r.author
    totalPages := r.totalPages
    currentPage := r.currentPage
    coverURL := r.coverURL
    notes := r.notes
    pageReflections := r.pageReflections.getD []
    pdfURL := r.pdfURL
    status := some (r.status.getD StoredStatus.reading)
    priority := some (r.priority.getD PriorityLevel.none)
    pdfAnnotations := some (r.pdfAnnotations.getD []) }

/-- Models `saveBooks`: `JSON.stringify(books)`. -/
def saveBooks (books : List Book) : List RawBook :=
  books.map saveBook

/-- Models `loadBooks` on a successfully parsed stored value: `books.map(migrate)`;
a missing key or corrupt value yields `[]` upstream of this map. -/
def loadBooks (raws : List RawBook) : List Book :=
  raws.map migrate

/-- Well-formed book: the optional fields back-filled by every load are
present, as they are for every book produced by `addBook` or `loadBooks`. -/
def WFBook (b : Book) : Prop :=
  b.status.isSome ∧ b.priority.isSome ∧ b.pdfAnnotations.isSome

instance : DecidablePred WFBook := fun b =>
  inferInstanceAs
    (Decidable (b.status.isSome ∧ b.priority.isSome ∧ b.pdfAnnotations.isSome))

/-! ### Query with the in-place sort effect (`filteredBooks` in `useMemo`)

`let result = books; ... result = result.filter(...) ...; return result.sort(...)`:
`Array.prototype.sort` reorders its receiver in place.  When neither the
status filter nor the search filter ran, `result` is the store's own array,
so the sort reorders the store's list and the returned array is that same
list; when a filter ran, `result` is a fresh array and the store's list is
untouched. `queryStep` returns (store list after the query, returned list). -/
def queryStep (books : List Book) (filter : FilterType) (searchQuery : String) :
    List Book × List Book :=
  let result := filteredBooks books filter searchQuery
  if filter = FilterType.All ∧ strTrim searchQuery = "" then (result, result)
  else (books, result)

/-! ### Streak calculator (src/hooks/useReadingStreak.ts)

Calendar days are embedded as integers (day numbers): `YYYY-MM-DD` strings
of one era compare lexicographically exactly as their day numbers, the
millisecond difference of two such dates divided by 86,400,000 is their
day-number difference, and "yesterday" is `today - 1`. -/

/-- Models `[...dates].sort((a, b) => new Date(b).getTime() - new Date(a).getTime())`:
a descending sort of the day numbers. -/
def sortDatesDesc (dates : List Int) : List Int :=
  List.insertionSort (fun a b : Int => b ≤ a) dates

/-- The `for (const dateStr of sortedDates)` loop of `calculateStreak`:
an exact match with the expected day counts and moves the expectation one
day back; a date strictly older than expected breaks the walk when the
difference exceeds one day, otherwise moves the expectation to the day
before it without counting; a date newer than expected (a duplicate of an
already counted day) is skipped. -/
def streakLoop : List Int → Int → Nat → Nat
  | [], _, streak => streak
  | d :: rest, currentDate, streak =>
    if d = currentDate then streakLoop rest (currentDate - 1) (streak + 1)
    else if d < currentDate then
      if 1 < currentDate - d then streak
      else streakLoop rest (d - 1) streak
    else streakLoop rest currentDate streak

/-- Models `calculateStreak`: 0 on an empty list; 0 when the most recent day is
neither today nor yesterday; otherwise the walk of `streakLoop` starting
at the most recent day. -/
def calculateStreak (today : Int) (dates : List Int) : Nat :=
  match sortDatesDesc dates with
  | [] => 0
  | mostRecent :: rest =>
    if mostRecent ≠ today ∧ mostRecent ≠ today - 1 then 0
    else streakLoop (mostRecent :: rest) mostRecent 0

/-- Models `markTodayAsRead`: `prev.includes(today) ? prev : [...prev, today]`. -/
def markTodayAsRead (today : Int) (dates : List Int) : List Int :=
  if today ∈ dates then dates else dates ++ [today]

/-! ### Concrete values used by counterexamples and witnesses -/

/-- A book with 10 total pages, none read, at priority `none`. -/
def exBook1 : Book :=
  { id := 1, title := "Dune", author := "Herbert", totalPages := 10,
    currentPage := 0, coverURL := "c", notes := "", pageReflections := [],
    pdfURL := Option.none, status := some StoredStatus.reading,
    priority := some PriorityLevel.none, pdfAnnotations := some [] }

/-- A partial update carrying only `currentPage`. -/
def cpUpdate (v : Int) : BookUpdate := { currentPage := some v }

/-- A fully read book whose stored `status` is `'later'`. -/
def laterCompleteBook : Book :=
  { id := 3, title := "Emma", author := "Austen", totalPages := 100,
    currentPage := 100, coverURL := "c", notes := "", pageReflections := [],
    pdfURL := Option.none, status := some StoredStatus.later,
    priority := some PriorityLevel.none, pdfAnnotations := some [] }

/-- A fully read book whose stored `status` is `'reading'`. -/
def readingCompleteBook : Book :=
  { id := 4, title := "Ulysses", author := "Joyce", totalPages := 100,
    currentPage := 100, coverURL := "c", notes := "", pageReflections := [],
    pdfURL := Option.none, status := some StoredStatus.reading,
    priority := some PriorityLevel.none, pdfAnnotations := some [] }

/-- A raw stored record from the older schema: the optional fields are absent. -/
def rawOldBook : RawBook :=
  { id := 5, title := "Iliad", author := "Homer", totalPages := 300,
    currentPage := 42, coverURL := "c", notes := "",
    pageReflections := Option.none, pdfURL := Option.none,
    status := Option.none, priority := Option.none,
    pdfAnnotations := Option.none }

/-- The draft passed to `addBook` in the duplicate-id scenario. -/
def exDraft : BookDraft :=
  { title := "Title", author := "Author", totalPages := 100, coverURL := "c",
    pdfURL := Option.none, status := Option.none, priority := Option.none,
    pdfAnnotations := Option.none }

/-- A book one quarter read: 50 of 200 pages. -/
def halfReadBook : Book :=
  { id := 6, title := "Moby", author := "Melville", totalPages := 200,
    currentPage := 50, coverURL := "c", notes := "", pageReflections := [],
    pdfURL := Option.none, status := some StoredStatus.reading,
    priority := some PriorityLevel.none, pdfAnnotations := some [] }

/-- Priority `none` book, first in the store. -/
def lowPriorityBook : Book :=
  { id := 1, title := "B1", author := "A1", totalPages := 10,
    currentPage := 0, coverURL := "c", notes := "", pageReflections := [],
    pdfURL := Option.none, status := some StoredStatus.reading,
    priority := some PriorityLevel.none, pdfAnnotations := some [] }

/-- Priority `high` book, second in the store. -/
def highPriorityBook : Book :=
  { id := 2, title := "B2", author := "A2", totalPages := 10,
    currentPage := 0, coverURL := "c", notes := "", pageReflections := [],
    pdfURL := Option.none, status := some StoredStatus.reading,
    priority := some PriorityLevel.high, pdfAnnotations := some [] }

/-! ### Helper lemmas -/

theorem bookLe_iff (a b : Book) :
    bookLe a b ↔
      (priorityOrder (a.priority.getD PriorityLevel.none) <
          priorityOrder (b.priority.getD PriorityLevel.none) ∨
        (priorityOrder (a.priority.getD PriorityLevel.none) =
            priorityOrder (b.priority.getD PriorityLevel.none) ∧ b.id ≤ a.id)) := by
  simp only [bookLe, jsCompare]
  split_ifs with h <;> omega

instance : IsTotal Book bookLe where
  total a b := by
    simp only [bookLe, jsCompare]
    split_ifs with h1 h2 <;> omega

instance : IsTrans Book bookLe where
  trans a b c := by
    simp only [bookLe, jsCompare]
    split_ifs with h1 h2 h3 <;> omega

theorem migrate_saveBook (b : Book) (h : WFBook b) : migrate (saveBook b) = b := by
  rcases b with ⟨i, t, a, tp, cp, cov, nts, refl, url, st, pr, ann⟩
  obtain ⟨h1, h2, h3⟩ := h
  cases st <;> cases pr <;> cases ann <;>
    simp_all [migrate, saveBook, WFBook]

theorem wfBook_migrate (r : RawBook) : WFBook (migrate r) := by
  simp [WFBook, migrate]

/-! ### Claim C1: clamping of `currentPage` on update -/

/-- C1, counterexample: on a book with `totalPages = 10`, the call
`update(id, {currentPage: 15})` stores `currentPage = 15`, which exceeds
`totalPages`; the store performs no clamping, so the claimed clamped result
(`currentPage = 10`) is false at this input. -/
theorem updateBook_overshoot_not_clamped :
    (updateBook 1 (cpUpdate 15) [exBook1]).map Book.currentPage = [15] ∧
    (updateBook 1 (cpUpdate 15) [exBook1]).all
      (fun b => decide (b.currentPage ≤ b.totalPages)) = false := by
  decide

/-- C1, amended: `update` merges the supplied `currentPage` into the matching
book verbatim — the stored value equals the supplied value for every supplied
value, in particular values outside `[0, totalPages]`; `totalPages` is
unchanged. Clamping into `[0, totalPages]` is performed by the UI callers
before they invoke `update`, not by the store. -/
theorem updateBook_stores_currentPage_verbatim (books : List Book) (idv v : Int)
    (b : Book) (hb : b ∈ books) (hid : b.id = idv) :
    applyUpdate b (cpUpdate v) ∈ updateBook idv (cpUpdate v) books ∧
    (applyUpdate b (cpUpdate v)).currentPage = v ∧
    (applyUpdate b (cpUpdate v)).totalPages = b.totalPages := by
  refine ⟨?_, rfl, rfl⟩
  unfold updateBook
  have h : (fun b' => if b'.id = idv then applyUpdate b' (cpUpdate v) else b') b =
      applyUpdate b (cpUpdate v) := by simp [hid]
  exact h ▸ List.mem_map_of_mem _ hb

/-- C1, witness for the amended theorem at `exBook1` and the out-of-range
value `15 = totalPages + 5`. -/
theorem updateBook_stores_currentPage_verbatim_witness :
    applyUpdate exBook1 (cpUpdate 15) ∈ updateBook 1 (cpUpdate 15) [exBook1] ∧
    (applyUpdate exBook1 (cpUpdate 15)).currentPage = 15 ∧
    (applyUpdate exBook1 (cpUpdate 15)).totalPages = exBook1.totalPages :=
  updateBook_stores_currentPage_verbatim [exBook1] 1 15 exBook1 (by decide) rfl

/-! ### Claim C2: precedence of `Completed` over the `later` flag -/

/-- C2, counterexample: a fully read book marked `'later'`
(`currentPage = totalPages = 100`) is reported `Later`, not `Completed`, so
"`status(book) == Completed` iff `currentPage >= totalPages`" is false at
this input. -/
theorem getBookStatus_later_complete_is_Later :
    getBookStatus laterCompleteBook = BookStatus.Later ∧
    laterCompleteBook.totalPages ≤ laterCompleteBook.currentPage ∧
    decide (getBookStatus laterCompleteBook = BookStatus.Completed) = false := by
  decide

/-- C2, amended: the `later` flag wins over completion — a book whose stored
status is `'later'` is always reported `Later`; for every other book the
label is `Completed` exactly when `currentPage >= totalPages`. -/
theorem getBookStatus_spec (b : Book) :
    (b.status = some StoredStatus.later → getBookStatus b = BookStatus.Later) ∧
    (b.status ≠ some StoredStatus.later →
      (getBookStatus b = BookStatus.Completed ↔ b.totalPages ≤ b.currentPage)) := by
  unfold getBookStatus
  constructor
  · intro h
    simp [h]
  · intro h
    simp only [if_neg h]
    split_ifs with h2 <;> simp [h2]

/-- C2, witness: the amended theorem applied to a fully read `'later'` book
and to a fully read `'reading'` book. -/
theorem getBookStatus_spec_witness :
    getBookStatus laterCompleteBook = BookStatus.Later ∧
    getBookStatus readingCompleteBook = BookStatus.Completed :=
  ⟨(getBookStatus_spec laterCompleteBook).1 rfl,
    ((getBookStatus_spec readingCompleteBook).2 (by decide)).mpr (by decide)⟩

/-! ### Claim C3: the streak walk -/

/-- C3: the four examples of the claim hold (`{today, yesterday,
day-before-yesterday} = 3`, `{today, 3-days-ago} = 1`, `{} = 0`,
`{two-days-ago} = 0`, with `today = 10`), but at the failing input
`{today, 2-days-ago, 3-days-ago}` the code returns 2: the walk does not stop
at the one-day gap after `today` (despite its own comment "if we miss a day,
stop") — it skips the gap day without counting and resumes counting at
`3-days-ago` — whereas the claimed rule (the maximal consecutive run ending
at the most recent day) gives 1. -/
theorem calculateStreak_examples_and_gap_bug :
    calculateStreak 10 [10, 9, 8] = 3 ∧
    calculateStreak 10 [10, 7] = 1 ∧
    calculateStreak 10 ([] : List Int) = 0 ∧
    calculateStreak 10 [8] = 0 ∧
    calculateStreak 10 [10, 8, 7] = 2 := by
  decide

/-! ### Claim C4: persistence round trip and back-fill -/

/-- C4: loading after saving a well-formed list returns the same list; for a
raw list from an older schema, every record appears migrated in the loaded
list, each missing optional field back-filled with its documented default
(`pageReflections: []`, `status: 'reading'`, `priority: 'none'`,
`pdfAnnotations: []`); and a further save/load cycle leaves the loaded list
unchanged, so the back-fill happens on every load, not just the first. -/
theorem load_save_roundtrip_and_backfill (books : List Book)
    (hwf : ∀ b ∈ books, WFBook b) (raws : List RawBook) (r : RawBook)
    (hr : r ∈ raws) :
    loadBooks (saveBooks books) = books ∧
    migrate r ∈ loadBooks raws ∧
    (r.pageReflections = Option.none → (migrate r).pageReflections = []) ∧
    (r.status = Option.none → (migrate r).status = some StoredStatus.reading) ∧
    (r.priority = Option.none → (migrate r).priority = some PriorityLevel.none) ∧
    (r.pdfAnnotations = Option.none → (migrate r).pdfAnnotations = some []) ∧
    loadBooks (saveBooks (loadBooks raws)) = loadBooks raws := by
  have roundtrip : ∀ (l : List Book), (∀ b ∈ l, WFBook b) →
      loadBooks (saveBooks l) = l := by
    intro l hl
    unfold loadBooks saveBooks
    rw [List.map_map]
    exact List.map_congr_left (fun b hb => migrate_saveBook b (hl b hb)) |>.trans
      l.map_id
  refine ⟨roundtrip books hwf, List.mem_map_of_mem _ hr, ?_, ?_, ?_, ?_, ?_⟩
  · intro h; simp [migrate, h]
  · intro h; simp [migrate, h]
  · intro h; simp [migrate, h]
  · intro h; simp [migrate, h]
  · refine roundtrip _ ?_
    intro b hb
    obtain ⟨r', _, rfl⟩ := List.mem_map.mp hb
    exact wfBook_migrate r'

/-- C4, witness: the round trip at a singleton well-formed list and the
back-fill at a singleton old-schema raw list. -/
theorem load_save_roundtrip_and_backfill_witness :
    loadBooks (saveBooks [exBook1]) = [exBook1] ∧
    migrate rawOldBook ∈ loadBooks [rawOldBook] ∧
    (rawOldBook.pageReflections = Option.none →
      (migrate rawOldBook).pageReflections = []) ∧
    (rawOldBook.status = Option.none →
      (migrate rawOldBook).status = some StoredStatus.reading) ∧
    (rawOldBook.priority = Option.none →
      (migrate rawOldBook).priority = some PriorityLevel.none) ∧
    (rawOldBook.pdfAnnotations = Option.none →
      (migrate rawOldBook).pdfAnnotations = some []) ∧
    loadBooks (saveBooks (loadBooks [rawOldBook])) = loadBooks [rawOldBook] :=
  load_save_roundtrip_and_backfill [exBook1] (by decide) [rawOldBook]
    rawOldBook (by decide)

/-! ### Claim C5: the query result -/

/-- The combined selection predicate of the query: the derived status
matches the filter (`All` matches everything), and when the search text is
non-blank the lowercased title or author contains the lowercased text. -/
def matchesQuery (f : FilterType) (q : String) (b : Book) : Bool :=
  (decide (f = FilterType.All) || statusMatchesFilter (getBookStatus b) f) &&
  (decide (strTrim q = "") ||
    (strIncludes (strToLower b.title) (strToLower q) ||
      strIncludes (strToLower b.author) (strToLower q)))

theorem filteredBooks_eq_sort_filter (books : List Book) (f : FilterType)
    (q : String) :
    filteredBooks books f q =
      List.insertionSort bookLe (books.filter (matchesQuery f q)) := by
  unfold filteredBooks
  by_cases hf : f = FilterType.All <;> by_cases hq : strTrim q = "" <;>
    simp [hf, hq, List.filter_filter, Bool.and_comm]
  · have ht : matchesQuery FilterType.All q = fun _ : Book => true := by
      funext b; simp [matchesQuery, hq]
    rw [ht, List.filter_true]
  · congr 1
    exact List.filter_congr fun b _ => by simp [matchesQuery, hq]
  · congr 1
    exact List.filter_congr fun b _ => by simp [matchesQuery, hf, hq]
  · congr 1
    exact List.filter_congr fun b _ => by simp [matchesQuery, hf, hq, Bool.and_comm]

/-- C5: the query returns exactly the books selected by the filter and the
search (a permutation of the filtered store), the result is sorted by the
comparator relation, and that relation is precisely "higher priority rank
first, then descending id within equal priority"; the result is a function
of the inputs, hence deterministic. -/
theorem filteredBooks_query_spec (books : List Book) (filter : FilterType)
    (searchQuery : String) :
    List.Perm (filteredBooks books filter searchQuery)
      (books.filter (matchesQuery filter searchQuery)) ∧
    (filteredBooks books filter searchQuery).Sorted bookLe ∧
    (∀ a b : Book, bookLe a b ↔
      (priorityOrder (a.priority.getD PriorityLevel.none) <
          priorityOrder (b.priority.getD PriorityLevel.none) ∨
        (priorityOrder (a.priority.getD PriorityLevel.none) =
            priorityOrder (b.priority.getD PriorityLevel.none) ∧
          b.id ≤ a.id))) := by
  rw [filteredBooks_eq_sort_filter]
  exact ⟨List.perm_insertionSort bookLe _, List.sorted_insertionSort bookLe _,
    bookLe_iff⟩

/-! ### Claim C6: id freshness under adds -/

/-- C6: two `add` calls within the same clock tick (both see
`Date.now() = 1000`) store two books that share the id 1000 — the id
assigned by `add` is the raw clock value, with no freshness check against
the ids already in the list, so id uniqueness fails in the same-tick
scenario. -/
theorem addBook_same_tick_duplicate_ids :
    (addBook 1000 exDraft (addBook 1000 exDraft [])).map Book.id =
      [1000, 1000] ∧
    decide ((addBook 1000 exDraft (addBook 1000 exDraft [])).map
      Book.id).Nodup = false := by
  decide

/-! ### Claim C7: query mutates and aliases the store -/

/-- C7: evaluating the query with filter `All` and a blank search sorts the
store's own list in place — the store's list order changes from `[1, 2]` to
`[2, 1]` — and the returned list is that same (aliased) list; when a filter
does run (here `Reading`), the store's list is left untouched because the
sort acts on the copy the filter produced. -/
theorem queryStep_all_blank_mutates_and_aliases :
    (queryStep [lowPriorityBook, highPriorityBook] FilterType.All "").1.map
      Book.id = [2, 1] ∧
    [lowPriorityBook, highPriorityBook].map Book.id = [1, 2] ∧
    (queryStep [lowPriorityBook, highPriorityBook] FilterType.All "").1 =
      (queryStep [lowPriorityBook, highPriorityBook] FilterType.All "").2 ∧
    (queryStep [lowPriorityBook, highPriorityBook] FilterType.Reading "").1 =
      [lowPriorityBook, highPriorityBook] := by
  decide

/-! ### Claim C8: progress percentage -/

/-- C8: for books with `0 ≤ currentPage ≤ totalPages` the progress
percentage is an integer in `[0, 100]`; it is 0 whenever `totalPages = 0`;
and for `totalPages > 0` it is `100 * currentPage / totalPages` rounded to
the nearest integer half-up, characterised by
`r ≤ 100*cp/tp + 1/2 < r + 1`, i.e.
`2*tp*r ≤ 200*cp + tp < 2*tp*(r + 1)`. -/
theorem getProgressPercentage_spec (b : Book) (h0 : 0 ≤ b.currentPage)
    (h1 : b.currentPage ≤ b.totalPages) :
    0 ≤ getProgressPercentage b ∧ getProgressPercentage b ≤ 100 ∧
    (b.totalPages = 0 → getProgressPercentage b = 0) ∧
    (0 < b.totalPages →
      2 * b.totalPages * getProgressPercentage b ≤
        200 * b.currentPage + b.totalPages ∧
      200 * b.currentPage + b.totalPages <
        2 * b.totalPages * (getProgressPercentage b + 1)) := by
  unfold getProgressPercentage
  by_cases htp : b.totalPages = 0
  · simp [htp]
  · have htp' : 0 < b.totalPages := by omega
    have hD : (0 : Int) < 2 * b.totalPages := by omega
    rw [if_neg htp, Int.fdiv_eq_ediv _ (by omega)]
    set N := 200 * b.currentPage + b.totalPages with hN
    have key := Int.ediv_add_emod N (2 * b.totalPages)
    have hge := Int.emod_nonneg N (by omega : 2 * b.totalPages ≠ 0)
    have hlt := Int.emod_lt_of_pos N hD
    have hlow : 2 * b.totalPages * (N / (2 * b.totalPages)) ≤ N := by omega
    have hhigh : N < 2 * b.totalPages * (N / (2 * b.totalPages) + 1) := by
      nlinarith [key, hge, hlt]
    refine ⟨Int.ediv_nonneg (by omega) (by omega), ?_, fun h => absurd h htp,
      fun _ => ⟨hlow, hhigh⟩⟩
    by_contra hgt
    have h101 : (101 : Int) ≤ N / (2 * b.totalPages) := by omega
    nlinarith [mul_le_mul_of_nonneg_left h101 (le_of_lt hD)]

/-- C8, witness: the theorem at a half-read book (`currentPage = 50`,
`totalPages = 200`, percentage 25). -/
theorem getProgressPercentage_spec_witness :
    0 ≤ getProgressPercentage halfReadBook ∧
    getProgressPercentage halfReadBook ≤ 100 ∧
    (halfReadBook.totalPages = 0 → getProgressPercentage halfReadBook = 0) ∧
    (0 < halfReadBook.totalPages →
      2 * halfReadBook.totalPages * getProgressPercentage halfReadBook ≤
        200 * halfReadBook.currentPage + halfReadBook.totalPages ∧
      200 * halfReadBook.currentPage + halfReadBook.totalPages <
        2 * halfReadBook.totalPages * (getProgressPercentage halfReadBook + 1)) :=
  getProgressPercentage_spec halfReadBook (by decide) (by decide)

/-! ### Claim C9: idempotence of `markTodayAsRead` -/

/-- C9: on a date set holding at most one entry for today (as every
reachable persisted set does, since the operation only appends when absent),
a second `markTodayAsRead` in the same day is a no-op, the set holds exactly
one entry for today after the first call, and the derived streak is
unchanged by the second call for every reference day. -/
theorem markTodayAsRead_idempotent (today : Int) (dates : List Int)
    (h : dates.count today ≤ 1) :
    markTodayAsRead today (markTodayAsRead today dates) =
      markTodayAsRead today dates ∧
    (markTodayAsRead today dates).count today = 1 ∧
    ∀ t : Int,
      calculateStreak t (markTodayAsRead today (markTodayAsRead today dates)) =
        calculateStreak t (markTodayAsRead today dates) := by
  have hidem : markTodayAsRead today (markTodayAsRead today dates) =
      markTodayAsRead today dates := by
    unfold markTodayAsRead
    by_cases hm : today ∈ dates
    · simp [hm]
    · simp [hm]
  refine ⟨hidem, ?_, fun t => by rw [hidem]⟩
  unfold markTodayAsRead
  by_cases hm : today ∈ dates
  · rw [if_pos hm]
    have h1 : 0 < dates.count today := List.count_pos_iff.mpr hm
    omega
  · rw [if_neg hm]
    have h0 : dates.count today = 0 := List.count_eq_zero.mpr hm
    simp [List.count_append, h0]

/-- C9, witness: the theorem at the empty date set and day 0. -/
theorem markTodayAsRead_idempotent_witness :
    markTodayAsRead 0 (markTodayAsRead 0 []) = markTodayAsRead 0 [] ∧
    (markTodayAsRead 0 ([] : List Int)).count 0 = 1 :=
  ⟨(markTodayAsRead_idempotent 0 [] (by decide)).1,
    (markTodayAsRead_idempotent 0 [] (by decide)).2.1⟩

/-! ### Claim C10: duplicate ids at update and delete -/

/-- C10: `update(id, fields)` rewrites every position whose book bears the
given id — position `i` of the result holds the merged book exactly when
position `i` of the input matched, so all duplicates are merged, not only the
first — and `delete(id)` removes every book bearing the id: membership in
the result is membership in the input minus all id matches, and no book with
the id remains. -/
theorem updateBook_deleteBook_all_matches (idv : Int) (u : BookUpdate)
    (books : List Book) :
    (updateBook idv u books).length = books.length ∧
    (∀ i : Nat, (updateBook idv u books)[i]? =
      (books[i]?).map fun b => if b.id = idv then applyUpdate b u else b) ∧
    (∀ b : Book, b ∈ deleteBook idv books ↔ b ∈ books ∧ b.id ≠ idv) ∧
    (deleteBook idv books).countP (fun b => decide (b.id = idv)) = 0 := by
  refine ⟨List.length_map books _, fun i => List.getElem?_map .., ?_, ?_⟩
  · intro b
    simp [deleteBook, List.mem_filter]
  · rw [List.countP_eq_zero]
    intro b hb
    have : b.id ≠ idv := by
      have := List.mem_filter.mp hb
      simpa using this.2
    simp [this]

end BookTracker
